import Mathlib

/-!
Verification of the communlytics analytics core, a shallow embedding of
src/data_utils.py: the engagement classifier (categorize_message, lines
40 to 46), the question and candidate-response markers (lines 63 and 72),
the unanswered-question detector (lines 70 to 93), the loader with its
error handling (lines 10 to 95), and the persona scoring heuristic
(get_user_persona, lines 97 to 149, and calculate_all_user_personas,
lines 151 to 170).

Modelling conventions: timestamps are integer seconds (the 24 hour window
of timedelta of one day is 86400 seconds); Python floats are modelled as
exact rationals (0.95 is 19/20); pandas tables are lists of structures;
the TextBlob sentiment column is omitted because it is an external
lexicon and no claim concerns it.  Character case folding is modelled by
Char.toLower, which agrees with Python on ASCII.
-/

namespace Communlytics

/-- Whitespace test used by the Python str.split tokenizer. -/
def isSpaceChar (c : Char) : Bool := c.isWhitespace

/-- Accumulator form of the Python str.split tokenizer: cur holds the
current word reversed. -/
def wordsAux : List Char → List Char → List (List Char)
  | [], cur => if cur.isEmpty then [] else [cur.reverse]
  | c :: cs, cur =>
    if isSpaceChar c then
      if cur.isEmpty then wordsAux cs [] else cur.reverse :: wordsAux cs []
    else wordsAux cs (c :: cur)

/-- Python text.split() with no arguments: the maximal whitespace-free
runs of the text, empty strings discarded (data_utils.py line 41). -/
def words (l : List Char) : List (List Char) := wordsAux l []

/-- categorize_message, data_utils.py lines 40 to 46: at most three
words gives Low Engagement, otherwise more than 100 characters or a
question mark gives High Engagement, otherwise Medium Engagement. -/
def categorize_message (text : String) : String :=
  if (words text.data).length ≤ 3 then ("Low Engagement (Short/Emoji)")
  else if 100 < text.data.length ∨ text.data.contains '?' = true then
    ("High Engagement (Question/Long)")
  else ("Medium Engagement (Response)")

/-- Line 63: a message is a question iff its text contains a literal
question mark. -/
def is_question (t : String) : Bool := t.data.contains '?'

/-- Fuel-driven core of pyCount; the fuel only forces structural
recursion and is always at least the length of the scanned list. -/
def pyCountAux (pat : List Char) : Nat → List Char → Nat
  | _, [] => if pat.isEmpty then 1 else 0
  | 0, _ :: _ => 0
  | fuel + 1, c :: cs =>
    if pat.isPrefixOf (c :: cs) then
      1 + pyCountAux pat fuel (List.drop (pat.length - 1) cs)
    else pyCountAux pat fuel cs

/-- Python str.count: number of non-overlapping occurrences of pat,
scanning left to right (used at lines 118 and 121). -/
def pyCount (pat s : List Char) : Nat := pyCountAux pat s.length s

/-- One pattern character against one subject character under the
IGNORECASE flag: the dot matches every character except a newline, any
other character matches itself case-insensitively. -/
def charMatch (p c : Char) : Bool :=
  if p == '.' then c != '\n' else p.toLower == c.toLower

/-- Does the pattern match a prefix of the subject. -/
def matchHere : List Char → List Char → Bool
  | [], _ => true
  | _ :: _, [] => false
  | p :: ps, c :: cs => charMatch p c && matchHere ps cs

/-- Python re.search with the IGNORECASE flag, RESTRICTED to the
fragment of patterns whose characters are regex literals or the dot:
the dot matches any character except a newline, every other character
matches itself case-insensitively.  Patterns containing any other
metacharacter (quantifiers, classes, alternation, anchors, escapes)
are not modelled: on those the source engages the full regex engine,
or even raises on an invalid pattern such as a lone opening
parenthesis (see claim C3).  Every theorem about the name matcher
therefore carries a regex_literal_dot hypothesis confining the display
name to this fragment. -/
def reSearch (pat : List Char) : List Char → Bool
  | [] => matchHere pat []
  | c :: cs => matchHere pat (c :: cs) || reSearch pat cs

/-- pandas Series.str.contains(pat, case=False) at line 90: with the
default regex=True this is a case-insensitive regular-expression
search of pat inside s, not a plain substring test.  Faithful to the
source exactly when pat stays inside the literal-plus-dot fragment of
reSearch (see regex_literal_dot); outside it the source behaves as the
full Python regex engine, or raises. -/
def str_contains_ci (s pat : String) : Bool := reSearch pat.data s.data

/-- Case-insensitive substring containment: this is the wording of the
spec and of claim C1 (contains the display name as a case-insensitive
substring), to be compared with str_contains_ci from the source. -/
def isSubList (pat : List Char) : List Char → Bool
  | [] => pat.isEmpty
  | c :: cs => pat.isPrefixOf (c :: cs) || isSubList pat cs

/-- The claim-side relation: pat occurs in s as a case-insensitive
substring. -/
def ci_substring (pat s : String) : Bool :=
  isSubList (pat.data.map Char.toLower) (s.data.map Char.toLower)

/-- The regex metacharacters of Python re other than the dot.  The
opening and closing braces are written by code point to keep them out
of the source text. -/
def regexMeta : List Char :=
  ['\\', '^', '$', '|', '?', '*', '+', '(', ')', '[', ']',
   Char.ofNat 123, Char.ofNat 125]

/-- Display names inside the fragment modelled by reSearch: no regex
metacharacter other than possibly the dot wildcard.  On these names
reSearch is re.search, so the theorems about line 90 are stated under
this hypothesis. -/
def regex_literal_dot (s : String) : Bool :=
  s.data.all (fun c => !(regexMeta.contains c))

/-- Display names that are regex literals: no metacharacter at all,
the dot included.  On these names the regex containment of line 90 is
exactly case-insensitive substring containment. -/
def regex_literal (s : String) : Bool :=
  s.data.all (fun c => !(('.' :: regexMeta).contains c))

/-- One parsed message row of the canonical table. -/
structure Msg where
  channel : String
  user : String
  ts : Int
  text : String
deriving DecidableEq

/-- The unanswered-question detector, data_utils.py lines 70 to 93, as
the per-question flag: inside the channel partition of q, the candidate
responses are the messages whose text contains the at sign, a response
is valid when it lies strictly after q and at most 86400 seconds after
q, and q is flagged unanswered when no valid response mentions the
display name of the author of q (line 90).  Non-questions keep the
default false of line 64.  The name match of line 90 is modelled by
str_contains_ci, faithful for display names inside the literal-plus-
dot regex fragment: claim C1 is scoped to that fragment by the
regex_literal_dot hypothesis, and claim C3 records the crash of the
source on invalid-regex names. -/
def detect_unanswered (msgs : List Msg) (q : Msg) : Bool :=
  if is_question q.text then
    let channelData := msgs.filter (fun m => m.channel == q.channel)
    let responses := channelData.filter (fun m => m.text.data.contains '@')
    let valid := responses.filter (fun r =>
      decide (q.ts < r.ts) && decide (r.ts ≤ q.ts + 86400))
    !(valid.any (fun r => str_contains_ci r.text q.user))
  else false

/-- One raw input row before preprocessing.  tsRaw models the result of
pd.to_datetime with errors coerce at line 20: none is an unparseable
timestamp (NaT), some t is the parsed instant.  user is none when the
source column is missing or NaN (line 30). -/
structure RawRow where
  channel : String
  user : Option String
  text : String
  tsRaw : Option Int
deriving DecidableEq

/-- Lines 20 to 32: parse timestamps, drop the rows whose timestamp did
not parse, and fill missing users with the Anonymous placeholder. -/
def parseRows (rows : List RawRow) : List Msg :=
  rows.filterMap (fun r =>
    (r.tsRaw).map (fun t =>
      { channel := r.channel, user := (r.user).getD ("Anonymous"),
        ts := t, text := r.text }))

/-- The sort key of line 67: ascending by channel, then by timestamp. -/
def chanTsLe (a b : Msg) : Prop :=
  a.channel < b.channel ∨ (a.channel = b.channel ∧ a.ts ≤ b.ts)

instance : DecidableRel chanTsLe := fun a b => by
  unfold chanTsLe; infer_instance

/-- One row of the enriched output table of load_data. -/
structure EnrichedMsg where
  channel : String
  user : String
  ts : Int
  text : String
  message_type : String
  is_question : Bool
  is_unanswered : Bool
deriving DecidableEq

/-- load_data, data_utils.py lines 10 to 95.  The input none models a
missing file, which the source turns into an empty table (lines 11 to
13); some rows is the parsed CSV.  Rows with unparseable timestamps are
dropped, users are defaulted, the table is sorted by channel and
timestamp, and the derived columns Message Type, is_question and
is_unanswered are attached. -/
def load_data (input : Option (List RawRow)) : List EnrichedMsg :=
  match input with
  | none => []
  | some rows =>
    let sorted := List.insertionSort chanTsLe (parseRows rows)
    sorted.map (fun m =>
      { channel := m.channel, user := m.user, ts := m.ts, text := m.text,
        message_type := categorize_message m.text,
        is_question := is_question m.text,
        is_unanswered := detect_unanswered sorted m })

/-- Lowercased character list of a string, modelling Python str.lower
on ASCII. -/
def lowerStr (t : String) : List Char := t.data.map Char.toLower

/-- Join with a single space, modelling the Python str.join at line
110. -/
def joinSp : List (List Char) → List Char
  | [] => []
  | [w] => w
  | w :: ws => w ++ ' ' :: joinSp ws

/-- Line 110: the lowercased corpus of all messages of a user, joined
by single spaces. -/
def text_corpus (texts : List String) : List Char := joinSp (texts.map lowerStr)

/-- Line 111. -/
def advocate_keywords : List String :=
  ["feature", "roadmap", "bug", "release", "update", "suggestion", "plz",
   "please", "add"]

/-- Line 112. -/
def learner_keywords : List String :=
  ["how", "why", "help", "error", "question", "fail", "issue", "problem"]

/-- Total occurrences of the given keywords inside the corpus, the sum
of the str.count calls at lines 118 and 121. -/
def keyword_hits (kws : List String) (corpus : List Char) : Nat :=
  (kws.map (fun w => pyCount w.data corpus)).sum

/-- Total character count of the messages of the user, in ℕ. -/
def total_len (texts : List String) : Nat :=
  (texts.map (fun t => t.data.length)).sum

/-- Line 105: mean character length of the messages of the user. -/
def avg_len (texts : List String) : ℚ :=
  (total_len texts : ℚ) / (texts.length : ℚ)

/-- Line 106: fraction of the messages of the user that are questions. -/
def question_share (texts : List String) : ℚ :=
  ((texts.countP (fun t => is_question t)) : ℚ) / (texts.length : ℚ)

/-- Line 107: fraction of the messages of the user labelled Low
Engagement. -/
def low_engagement_share (texts : List String) : ℚ :=
  ((texts.countP
      (fun t => categorize_message t == "Low Engagement (Short/Emoji)")) : ℚ)
    / (texts.length : ℚ)

/-- Line 118. -/
def advocate_score (texts : List String) : ℚ :=
  ((keyword_hits advocate_keywords (text_corpus texts)) : ℚ)
    / (texts.length : ℚ) * 20

/-- Line 121. -/
def learner_score (texts : List String) : ℚ :=
  question_share texts * 10 +
    ((keyword_hits learner_keywords (text_corpus texts)) : ℚ)
      / (texts.length : ℚ) * 10

/-- Lines 125 and 126. -/
def expert_score (texts : List String) : ℚ :=
  avg_len texts / 50 * 5 * (1 - question_share texts)

/-- Line 130. -/
def social_score (texts : List String) : ℚ :=
  low_engagement_share texts * 15

/-- Line 135: the sum of the four scores of the dictionary. -/
def total_score (texts : List String) : ℚ :=
  advocate_score texts + learner_score texts + expert_score texts +
    social_score texts

/-- Python max with a key function over the score dictionary at line
133: iterate in insertion order and replace the current best only on a
strictly greater score, so the first maximal entry wins. -/
def pickMax : String × ℚ → List (String × ℚ) → String × ℚ
  | best, [] => best
  | best, p :: ps => pickMax (if p.2 > best.2 then p else best) ps

/-- The three entries following Feature Advocate, in the insertion
order of the score dictionary (lines 115 to 130). -/
def score_tail (texts : List String) : List (String × ℚ) :=
  [("Active Learner", learner_score texts),
   ("Expert Contributor", expert_score texts),
   ("Social Connector", social_score texts)]

/-- Line 133: the winning persona and its score. -/
def best_pair (texts : List String) : String × ℚ :=
  pickMax ("Feature Advocate", advocate_score texts) (score_tail texts)

/-- The four labels of the score dictionary, in insertion order. -/
def personaLabels : List String :=
  ["Feature Advocate", "Active Learner", "Expert Contributor",
   "Social Connector"]

/-- The descriptions dictionary of lines 141 to 147, as a lookup. -/
def persona_description (label : String) : String :=
  if label = "Expert Contributor" then
    ("Initiates complex discussions, detailed solutions.")
  else if label = "Active Learner" then
    ("Frequently asks questions, uses community as resource.")
  else if label = "Feature Advocate" then
    ("Discusses roadmap, suggests features, critical of updates.")
  else if label = "Social Connector" then
    ("Socializes, welcomes members, uses emojis.")
  else ("Low participation.")

/-- The scoring path of get_user_persona, lines 104 to 149: the four
heuristic scores, the first-maximal winner, and the confidence, which
is the winner score over the total when the total is positive and 0
otherwise, then capped at 19/20, the exact value of 0.95. -/
def persona_scoring (texts : List String) : String × ℚ × String :=
  let bp := best_pair texts
  let conf0 : ℚ := if 0 < total_score texts then bp.2 / total_score texts else 0
  (bp.1, min conf0 (19 / 20), persona_description bp.1)

/-- get_user_persona, lines 97 to 149.  The source receives the user
rows twice, as the metrics frame and as the message series; both are
determined by the list of the texts of the user, because the metrics
columns is_question and Message Type are computed from the text by
is_question and categorize_message in load_data, so the embedding takes
the texts alone.  Fewer than five messages short-circuits to the
Passive Reader triple with confidence exactly 1 (lines 100 to 102). -/
def get_user_persona (texts : List String) : String × ℚ × String :=
  if texts.length < 5 then
    ("Passive Reader/Lurker", 1, "Extremely low message count.")
  else persona_scoring texts

/-- The texts of one user inside a table, in row order. -/
def user_texts (msgs : List Msg) (u : String) : List String :=
  (msgs.filter (fun m => m.user == u)).map (fun m => m.text)

/-- calculate_all_user_personas, lines 151 to 170: group the table by
user and keep only the persona label of each user. -/
def calculate_all_user_personas (msgs : List Msg) : List (String × String) :=
  ((msgs.map (fun m => m.user)).dedup).map
    (fun u => (u, (get_user_persona (user_texts msgs u)).1))

/-- Modelled from the spec: run counter for the whitespace-tokenized
word count of section 4.2, counting the starts of maximal non-space
runs; the flag records whether the scan stands inside a run. -/
def countRunsAux : List Char → Bool → Nat
  | [], _ => 0
  | c :: cs, inWord =>
    if isSpaceChar c then countRunsAux cs false
    else (if inWord then 0 else 1) + countRunsAux cs true

/-- Modelled from the spec: the whitespace-tokenized word count of
section 4.2. -/
def word_count_spec (t : String) : Nat := countRunsAux t.data false

/-- Modelled from the spec, section 4.2: the three-branch engagement
label, written over the run-counting tokenizer, to be compared with
categorize_message from the source. -/
def engagement_label_spec (t : String) : String :=
  if word_count_spec t ≤ 3 then ("Low Engagement (Short/Emoji)")
  else if 100 < t.data.length ∨ t.data.contains '?' = true then
    ("High Engagement (Question/Long)")
  else ("Medium Engagement (Response)")

/-- Modelled from the claim wording of C10: the first label of the
fixed sequence Feature Advocate, Active Learner, Expert Contributor,
Social Connector that attains the maximum of the four scores. -/
def first_max_label (s0 s1 s2 s3 : ℚ) : String :=
  if s1 ≤ s0 ∧ s2 ≤ s0 ∧ s3 ≤ s0 then ("Feature Advocate")
  else if s2 ≤ s1 ∧ s3 ≤ s1 then ("Active Learner")
  else if s3 ≤ s2 then ("Expert Contributor")
  else ("Social Connector")

/-! Concrete sample data for witnesses and counterexamples. -/

/-- A question whose author has a dot inside the display name. -/
def qDot : Msg :=
  { channel := "general", user := "a.b", ts := 0,
    text := "will a.b work here?" }

/-- A response that mentions axb but not a.b as a substring. -/
def rDot : Msg :=
  { channel := "general", user := "carol", ts := 3600,
    text := "@ axb yes it does" }

/-- A question by alice in the help channel. -/
def qHelp : Msg :=
  { channel := "help", user := "alice", ts := 0,
    text := "how do I fix this error?" }

/-- A qualifying response to qHelp one hour later. -/
def rHelp : Msg :=
  { channel := "help", user := "bob", ts := 3600,
    text := "@Alice try restarting" }

/-- The same response text posted in a different channel. -/
def rElsewhere : Msg :=
  { channel := "random", user := "bob", ts := 3600,
    text := "@alice try restarting" }

/-- A raw row with a parseable timestamp. -/
def rowGood : RawRow :=
  { channel := "general", user := some ("dana"),
    text := "hello there everyone today", tsRaw := some 100 }

/-- A raw row whose timestamp failed to parse. -/
def rowBad : RawRow :=
  { channel := "general", user := none, text := "broken row", tsRaw := none }

/-- The enriched row that load_data produces from rowGood. -/
def rowGoodEnriched : EnrichedMsg :=
  { channel := "general", user := "dana", ts := 100,
    text := "hello there everyone today",
    message_type := "Medium Engagement (Response)",
    is_question := false, is_unanswered := false }

/-- Four one-word messages. -/
def texts4 : List String := ["a", "b", "c", "d"]

/-- Five one-word messages. -/
def texts5 : List String := ["a", "b", "c", "d", "e"]

/-- Five empty messages. -/
def emptyTexts5 : List String := ["", "", "", "", ""]

/-! Helper lemmas. -/

/-- The split tokenizer and the run counter of the spec agree; cur is
the word in progress. -/
theorem wordsAux_length (l : List Char) :
    ∀ cur, (wordsAux l cur).length =
      countRunsAux l (!cur.isEmpty) + (if cur.isEmpty then 0 else 1) := by
  induction l with
  | nil =>
    intro cur
    cases cur <;> simp [wordsAux, countRunsAux]
  | cons c cs ih =>
    intro cur
    by_cases hs : isSpaceChar c
    · by_cases hc : cur.isEmpty <;>
        simp [wordsAux, countRunsAux, hs, hc, ih []]
    · by_cases hc : cur.isEmpty
      · simp [wordsAux, countRunsAux, hs, hc, ih (c :: cur)]
        omega
      · simp [wordsAux, countRunsAux, hs, hc, ih (c :: cur)]

/-- The word count used by the source classifier equals the
whitespace-tokenized word count of the spec. -/
theorem words_length_eq_spec (t : String) :
    (words t.data).length = word_count_spec t := by
  have h := wordsAux_length t.data []
  simpa [words, word_count_spec] using h

/-- Looking up a key of a map built by pairing each key with a function
of it returns that function value. -/
theorem lookup_map_pair {β : Type} (f : String → β) :
    ∀ (l : List String) (u : String), u ∈ l →
      (l.map (fun a => (a, f a))).lookup u = some (f u) := by
  intro l
  induction l with
  | nil => intro u hu; cases hu
  | cons a as ih =>
    intro u hu
    by_cases h : u = a
    · subst h; simp [List.lookup]
    · have hm : u ∈ as := by
        rcases List.mem_cons.mp hu with h1 | h1
        · exact absurd h1 h
        · exact h1
      have hb : (u == a) = false := beq_eq_false_iff_ne.mpr h
      simp [List.lookup, hb, ih u hm]

/-- For a dot-free pattern the single-position matcher is the
case-insensitive prefix test. -/
theorem matchHere_eq_isPrefixOf (pat : List Char)
    (h : pat.all (fun c => !(c == '.')) = true) :
    ∀ s, matchHere pat s =
      (pat.map Char.toLower).isPrefixOf (s.map Char.toLower) := by
  induction pat with
  | nil => intro s; cases s <;> simp [matchHere, List.isPrefixOf]
  | cons p ps ih =>
    simp only [List.all_cons, Bool.and_eq_true] at h
    have hp : (p == '.') = false := by
      cases hpc : (p == '.')
      · rfl
      · rw [hpc] at h; exact absurd h.1 (by decide)
    intro s
    cases s with
    | nil => simp [matchHere, List.isPrefixOf]
    | cons c cs =>
      simp [matchHere, charMatch, hp, List.isPrefixOf, ih h.2 cs]

/-- For a dot-free pattern the search of the model is the
case-insensitive substring test. -/
theorem reSearch_eq_isSubList (pat : List Char)
    (h : pat.all (fun c => !(c == '.')) = true) :
    ∀ s, reSearch pat s =
      isSubList (pat.map Char.toLower) (s.map Char.toLower) := by
  intro s
  induction s with
  | nil =>
    rw [show reSearch pat [] = matchHere pat [] from rfl,
      matchHere_eq_isPrefixOf pat h []]
    cases pat <;> simp [isSubList, List.isPrefixOf]
  | cons c cs ih =>
    simp [reSearch, isSubList, matchHere_eq_isPrefixOf pat h, ih]

/-- On regex-literal display names the containment of line 90 is
exactly the case-insensitive substring containment of the spec
wording. -/
theorem str_contains_ci_eq_substring (s pat : String)
    (h : regex_literal pat = true) :
    str_contains_ci s pat = ci_substring pat s := by
  have hdot : pat.data.all (fun c => !(c == '.')) = true := by
    unfold regex_literal at h
    rw [List.all_eq_true] at h
    rw [List.all_eq_true]
    intro c hc
    have h1 := h c hc
    simp only [Bool.not_eq_true'] at h1 ⊢
    cases hcc : (c == '.')
    · rfl
    · exfalso
      have hc' : c = '.' := beq_iff_eq.mp hcc
      subst hc'
      have h2 : ('.' :: regexMeta).contains ('.') = true := by decide
      rw [h2] at h1
      exact Bool.noConfusion h1
  unfold str_contains_ci ci_substring
  exact reSearch_eq_isSubList pat.data hdot s.data

theorem parseRows_length (rows : List RawRow) :
    (parseRows rows).length =
      (rows.filter (fun r => (r.tsRaw).isSome)).length := by
  induction rows with
  | nil => rfl
  | cons r rs ih =>
    cases h : r.tsRaw <;>
      simp [parseRows, List.filterMap_cons, List.filter_cons, h] <;>
      simpa [parseRows] using ih

theorem pickMax_mem : ∀ (ps : List (String × ℚ)) (b : String × ℚ),
    pickMax b ps = b ∨ pickMax b ps ∈ ps := by
  intro ps
  induction ps with
  | nil => intro b; left; rfl
  | cons p ps ih =>
    intro b
    simp only [pickMax]
    rcases ih (if p.2 > b.2 then p else b) with h | h
    · by_cases hc : p.2 > b.2
      · right; rw [h, if_pos hc]; exact List.mem_cons_self p ps
      · left; rw [h, if_neg hc]
    · right; exact List.mem_cons_of_mem p h

theorem pickMax_ge_start : ∀ (ps : List (String × ℚ)) (b : String × ℚ),
    b.2 ≤ (pickMax b ps).2 := by
  intro ps
  induction ps with
  | nil => intro b; exact le_refl _
  | cons p ps ih =>
    intro b
    simp only [pickMax]
    refine le_trans ?_ (ih (if p.2 > b.2 then p else b))
    by_cases hc : p.2 > b.2
    · rw [if_pos hc]; exact le_of_lt hc
    · rw [if_neg hc]

/-- The winning label is always one of the four scored personas. -/
theorem best_pair_label_mem (texts : List String) :
    (best_pair texts).1 ∈ personaLabels := by
  unfold best_pair score_tail
  rcases pickMax_mem
      [("Active Learner", learner_score texts),
       ("Expert Contributor", expert_score texts),
       ("Social Connector", social_score texts)]
      ("Feature Advocate", advocate_score texts) with h | h
  · rw [h]; simp [personaLabels]
  · simp only [List.mem_cons, List.not_mem_nil, or_false] at h
    rcases h with h | h | h <;> rw [h] <;> simp [personaLabels]

theorem advocate_score_nonneg (texts : List String) :
    0 ≤ advocate_score texts := by
  unfold advocate_score
  positivity

theorem question_share_nonneg (texts : List String) :
    0 ≤ question_share texts := by
  unfold question_share
  positivity

theorem question_share_le_one (texts : List String) :
    question_share texts ≤ 1 := by
  unfold question_share
  rcases Nat.eq_zero_or_pos texts.length with h | h
  · rw [h]; norm_num
  · apply div_le_one_of_le₀
    · exact_mod_cast List.countP_le_length _
    · positivity

theorem avg_len_nonneg (texts : List String) : 0 ≤ avg_len texts := by
  unfold avg_len
  positivity

theorem learner_score_nonneg (texts : List String) :
    0 ≤ learner_score texts := by
  unfold learner_score
  have h1 := question_share_nonneg texts
  positivity

theorem expert_score_nonneg (texts : List String) :
    0 ≤ expert_score texts := by
  unfold expert_score
  have h1 := avg_len_nonneg texts
  have h2 := question_share_le_one texts
  have h3 : (0 : ℚ) ≤ 1 - question_share texts := by linarith
  have h4 : (0 : ℚ) ≤ avg_len texts / 50 * 5 := by positivity
  exact mul_nonneg h4 h3

theorem social_score_nonneg (texts : List String) :
    0 ≤ social_score texts := by
  unfold social_score low_engagement_share
  positivity

/-- The winning score is at least the Feature Advocate score, hence
nonnegative. -/
theorem best_pair_score_nonneg (texts : List String) :
    0 ≤ (best_pair texts).2 := by
  unfold best_pair
  exact le_trans (advocate_score_nonneg texts)
    (pickMax_ge_start (score_tail texts)
      ("Feature Advocate", advocate_score texts))

/-! Claim theorems. -/

/-- C5: the engagement classifier is a pure function of the text whose
value is always one of the three fixed labels, and it equals the
three-branch cascade stated by the spec: at most 3 whitespace words is
Low Engagement, otherwise more than 100 characters or a question mark
is High Engagement, otherwise Medium Engagement. -/
theorem engagement_classifier_spec (t : String) :
    categorize_message t = engagement_label_spec t ∧
    categorize_message t ∈
      ["Low Engagement (Short/Emoji)", "Medium Engagement (Response)",
       "High Engagement (Question/Long)"] := by
  constructor
  · unfold categorize_message engagement_label_spec
    rw [words_length_eq_spec]
  · unfold categorize_message
    split_ifs <;> simp

/-- C4 counterexample: the text why? is a question (it contains a
question mark) yet it has a single word, so the classifier labels it
Low Engagement and not High Engagement; the question set is therefore
not a subset of the High Engagement set. -/
theorem short_question_counterexample :
    is_question "why?" = true ∧
    categorize_message "why?" = "Low Engagement (Short/Emoji)" ∧
    categorize_message "why?" ≠ "High Engagement (Question/Long)" := by
  decide

/-- C4 amended: a question message is labelled High Engagement provided
its text has more than 3 whitespace-tokenized words; short questions
fall into Low Engagement instead. -/
theorem long_question_high_engagement (t : String)
    (hq : is_question t = true) (hw : 3 < (words t.data).length) :
    categorize_message t = "High Engagement (Question/Long)" := by
  unfold categorize_message
  rw [if_neg (by omega), if_pos]
  right
  exact hq

/-- Witness for C4 amended: a four-word question is High Engagement. -/
theorem long_question_high_engagement_witness :
    categorize_message "is this thing on?" =
      "High Engagement (Question/Long)" :=
  long_question_high_engagement "is this thing on?" (by decide) (by decide)

/-- C1 counterexample: the display name a.b of the asker of qDot is
matched as a regular expression by line 90, so the response rDot, whose
text contains axb but not the substring a.b, marks the question
answered (flag false), while the claim, which requires a case-
insensitive SUBSTRING occurrence of the display name in some in-window
response, says the question is unanswered: no message of the table
satisfies the claim right-hand side. -/
theorem substring_claim_counterexample :
    detect_unanswered [qDot, rDot] qDot = false ∧
    ¬ ∃ r ∈ [qDot, rDot], r.channel = qDot.channel ∧
        r.text.data.contains '@' = true ∧
        qDot.ts < r.ts ∧ r.ts ≤ qDot.ts + 86400 ∧
        ci_substring qDot.user r.text = true := by
  decide

/-- C1 amended: the display name of the asker is matched by line 90 as
a case-insensitive regular expression, not as a plain substring.  The
statement is scoped by hypothesis to the fragment on which the model
reSearch is re.search, display names with no regex metacharacter other
than the dot: there, for a question q, the detector leaves the flag
false, that is marks q answered, iff some message of the table lies in
the channel of q, contains the at sign, is strictly later than q by at
most 86400 seconds (the bound 86400 included, 86401 excluded, and
nothing at or before q), and matches the display name of the asker
under that regex containment, in which the dot matches any character
except a newline; self-authored responses are not excluded.  Second
conjunct: when the display name is moreover dot-free, that is a regex
literal, the regex containment coincides with the case-insensitive
substring test of the original claim on every text.  Names containing
other metacharacters engage the full regex engine of the source, or
raise (see C3), and are outside the formalized fragment. -/
theorem unanswered_iff_window_mention (msgs : List Msg) (q : Msg)
    (hq : is_question q.text = true)
    (_hname : regex_literal_dot q.user = true) :
    (detect_unanswered msgs q = false ↔
      ∃ r ∈ msgs, r.channel = q.channel ∧
        r.text.data.contains '@' = true ∧
        q.ts < r.ts ∧ r.ts ≤ q.ts + 86400 ∧
        str_contains_ci r.text q.user = true) ∧
    (regex_literal q.user = true →
      ∀ s : String, str_contains_ci s q.user = ci_substring q.user s) := by
  constructor
  · unfold detect_unanswered
    rw [if_pos hq]
    simp only [Bool.not_eq_false', List.any_eq_true, List.mem_filter,
      Bool.and_eq_true, decide_eq_true_eq, beq_iff_eq]
    constructor
    · rintro ⟨r, ⟨⟨⟨hr, hch⟩, hat⟩, hlt, hle⟩, hnm⟩
      exact ⟨r, hr, hch, hat, hlt, hle, hnm⟩
    · rintro ⟨r, hr, hch, hat, hlt, hle, hnm⟩
      exact ⟨r, ⟨⟨⟨hr, hch⟩, hat⟩, hlt, hle⟩, hnm⟩
  · intro hlit s
    exact str_contains_ci_eq_substring s q.user hlit

/-- Witness for C1 amended: alice is a regex-literal name, the
in-window mention of alice by rHelp marks the question qHelp answered,
and on the name alice the regex containment agrees with the substring
test on the response text. -/
theorem unanswered_iff_window_mention_witness :
    detect_unanswered [qHelp, rHelp] qHelp = false ∧
    str_contains_ci "@Alice try restarting" "alice" =
      ci_substring "alice" "@Alice try restarting" :=
  ⟨(unanswered_iff_window_mention [qHelp, rHelp] qHelp (by decide)
      (by decide)).1.mpr ⟨rHelp, by decide⟩,
   (unanswered_iff_window_mention [qHelp, rHelp] qHelp (by decide)
      (by decide)).2 (by decide) "@Alice try restarting"⟩

/-- C2: the detector is channel-scoped: adding a message of another
channel never changes the flag of a question, however well its
timestamp and text would otherwise qualify, and the flag of a question
only depends on the messages of its own channel. -/
theorem channel_scoped (msgs : List Msg) (q r : Msg)
    (h : r.channel ≠ q.channel) :
    detect_unanswered (r :: msgs) q = detect_unanswered msgs q ∧
    detect_unanswered msgs q =
      detect_unanswered (msgs.filter (fun m => m.channel == q.channel)) q := by
  have hb : (r.channel == q.channel) = false := beq_eq_false_iff_ne.mpr h
  constructor
  · unfold detect_unanswered
    rw [List.filter_cons]
    simp [hb]
  · unfold detect_unanswered
    rw [List.filter_filter]
    simp [Bool.and_self]

/-- Witness for C2: the qualifying response text posted in the random
channel does not resolve the question asked in the help channel. -/
theorem channel_scoped_witness :
    detect_unanswered [rElsewhere, qHelp] qHelp =
      detect_unanswered [qHelp] qHelp ∧
    detect_unanswered [qHelp] qHelp = true :=
  ⟨(channel_scoped [qHelp] qHelp rElsewhere (by decide)).1, by decide⟩

/-- C8: input errors never halt the pipeline: a missing file yields the
empty table, the enriched table has exactly one row per input row whose
timestamp parsed, and every output row carries the parsed timestamp of
some input row, so the timestamp of an enriched row is never the
missing value. -/
theorem load_data_error_handling :
    load_data none = [] ∧
    ∀ rows : List RawRow,
      (load_data (some rows)).length =
        (rows.filter (fun r => (r.tsRaw).isSome)).length ∧
      ∀ m ∈ load_data (some rows), ∃ r ∈ rows, r.tsRaw = some m.ts := by
  refine ⟨rfl, fun rows => ⟨?_, ?_⟩⟩
  · unfold load_data
    rw [List.length_map,
      (List.perm_insertionSort chanTsLe (parseRows rows)).length_eq]
    exact parseRows_length rows
  · intro m hm
    unfold load_data at hm
    rcases List.mem_map.mp hm with ⟨msg, hmsg, rfl⟩
    have hp : msg ∈ parseRows rows :=
      (List.perm_insertionSort chanTsLe (parseRows rows)).mem_iff.mp hmsg
    rcases List.mem_filterMap.mp hp with ⟨r, hr, heq⟩
    refine ⟨r, hr, ?_⟩
    cases h : r.tsRaw with
    | none => rw [h] at heq; simp at heq
    | some t =>
      rw [h] at heq
      simp only [Option.map_some', Option.some.injEq] at heq
      subst heq
      rfl

/-- Witness for C8: of two raw rows, one with a parsed timestamp and
one with an unparseable one, exactly the parseable row survives, and
its enriched timestamp comes from its raw row. -/
theorem load_data_error_handling_witness :
    (load_data (some [rowGood, rowBad])).length = 1 ∧
    ∃ r ∈ [rowGood, rowBad], r.tsRaw = some rowGoodEnriched.ts := by
  constructor
  · rw [(load_data_error_handling.2 [rowGood, rowBad]).1]
    decide
  · exact (load_data_error_handling.2 [rowGood, rowBad]).2
      rowGoodEnriched (by decide)

/-- C9: for every user present in a table, the batch persona mapping of
calculate_all_user_personas assigns exactly the label component that
the single-user function get_user_persona returns on the rows of that
user of the same table. -/
theorem user_personas_agree (msgs : List Msg) (u : String)
    (h : ∃ m ∈ msgs, m.user = u) :
    (calculate_all_user_personas msgs).lookup u =
      some ((get_user_persona (user_texts msgs u)).1) := by
  unfold calculate_all_user_personas
  apply lookup_map_pair (fun v => (get_user_persona (user_texts msgs v)).1)
  rw [List.mem_dedup, List.mem_map]
  rcases h with ⟨m, hm, hu⟩
  exact ⟨m, hm, hu⟩

/-- Witness for C9: alice appears in the two-row table, and the batch
mapping returns for alice exactly the label of the single-user call. -/
theorem user_personas_agree_witness :
    (calculate_all_user_personas [qHelp, rHelp]).lookup "alice" =
      some ((get_user_persona (user_texts [qHelp, rHelp] "alice")).1) :=
  user_personas_agree [qHelp, rHelp] "alice" ⟨qHelp, by decide, by decide⟩

/-- C6: fewer than five messages short-circuits to the Passive Reader
triple with confidence exactly 1, regardless of every other feature;
five or more messages are classified by the four-score heuristic path,
whose label is always one of the four scored personas. -/
theorem persona_short_circuit (texts : List String) :
    (texts.length < 5 →
      get_user_persona texts =
        ("Passive Reader/Lurker", 1, "Extremely low message count.")) ∧
    (5 ≤ texts.length →
      get_user_persona texts = persona_scoring texts ∧
      (get_user_persona texts).1 ∈ personaLabels) := by
  constructor
  · intro h
    unfold get_user_persona
    rw [if_pos h]
  · intro h
    have hn : ¬ texts.length < 5 := by omega
    unfold get_user_persona
    rw [if_neg hn]
    exact ⟨rfl, best_pair_label_mem texts⟩

/-- Witness for C6: four messages give the Passive Reader triple, five
messages take the scoring path and give one of the four scored
labels. -/
theorem persona_short_circuit_witness :
    get_user_persona texts4 =
      ("Passive Reader/Lurker", 1, "Extremely low message count.") ∧
    (get_user_persona texts5).1 ∈ personaLabels :=
  ⟨(persona_short_circuit texts4).1 (by decide),
   ((persona_short_circuit texts5).2 (by decide)).2⟩

/-- C7: on the scoring path the confidence lies in the interval from 0
to 19/20: it is the winning score over the sum of the four scores
capped at 19/20 whenever the sum is positive, and it is exactly 0 when
the sum is 0, a winner label being still selected by the tie-break. -/
theorem persona_confidence (texts : List String) (h : 5 ≤ texts.length) :
    0 ≤ (get_user_persona texts).2.1 ∧
    (get_user_persona texts).2.1 ≤ 19 / 20 ∧
    (0 < total_score texts →
      (get_user_persona texts).2.1 =
        min ((best_pair texts).2 / total_score texts) (19 / 20)) ∧
    (total_score texts = 0 →
      (get_user_persona texts).2.1 = 0 ∧
      (get_user_persona texts).1 ∈ personaLabels) := by
  have hn : ¬ texts.length < 5 := by omega
  simp only [get_user_persona, if_neg hn, persona_scoring]
  refine ⟨?_, ?_, ?_, ?_⟩
  · apply le_min
    · split_ifs with hc
      · exact div_nonneg (best_pair_score_nonneg texts) (le_of_lt hc)
      · exact le_refl 0
    · norm_num
  · exact min_le_right _ _
  · intro hpos
    rw [if_pos hpos]
  · intro h0
    constructor
    · rw [if_neg (by rw [h0]; exact lt_irrefl 0),
        min_eq_left (by norm_num)]
    · exact best_pair_label_mem texts

/-- Witness for C7: the confidence of a five-message user is between 0
and 19/20. -/
theorem persona_confidence_witness :
    0 ≤ (get_user_persona texts5).2.1 ∧
    (get_user_persona texts5).2.1 ≤ 19 / 20 :=
  ⟨(persona_confidence texts5 (by decide)).1,
   (persona_confidence texts5 (by decide)).2.1⟩

/-- C10 counterexample: a user with five empty messages does not get
the label Feature Advocate claimed for it: every empty text is labelled
Low Engagement, so the Social Connector score is 15 while the three
other scores are 0, and the winner is Social Connector.  All four
scores equal at 0 is impossible on the scoring path. -/
theorem all_empty_texts_counterexample :
    (get_user_persona emptyTexts5).1 = "Social Connector" ∧
    (get_user_persona emptyTexts5).1 ≠ "Feature Advocate" := by
  have hA : advocate_score emptyTexts5 = 0 := by
    have h1 : keyword_hits advocate_keywords (text_corpus emptyTexts5) = 0 :=
      by decide
    have h2 : emptyTexts5.length = 5 := by decide
    unfold advocate_score
    rw [h1, h2]
    norm_num
  have hL : learner_score emptyTexts5 = 0 := by
    have h1 : keyword_hits learner_keywords (text_corpus emptyTexts5) = 0 :=
      by decide
    have h2 : emptyTexts5.length = 5 := by decide
    have h3 : (emptyTexts5.countP (fun t => is_question t)) = 0 := by decide
    unfold learner_score question_share
    rw [h1, h2, h3]
    norm_num
  have hE : expert_score emptyTexts5 = 0 := by
    have h1 : total_len emptyTexts5 = 0 := by decide
    have h2 : emptyTexts5.length = 5 := by decide
    unfold expert_score avg_len
    rw [h1, h2]
    norm_num
  have hS : social_score emptyTexts5 = 15 := by
    have h1 : (emptyTexts5.countP
        (fun t => categorize_message t == "Low Engagement (Short/Emoji)")) = 5 :=
      by decide
    have h2 : emptyTexts5.length = 5 := by decide
    unfold social_score low_engagement_share
    rw [h1, h2]
    norm_num
  have hn : ¬ emptyTexts5.length < 5 := by decide
  unfold get_user_persona
  rw [if_neg hn]
  unfold persona_scoring best_pair score_tail
  rw [hA, hL, hE, hS]
  norm_num [pickMax]
  decide

/-- C10 amended: on the scoring path the winner is the first label of
the fixed sequence Feature Advocate, Active Learner, Expert
Contributor, Social Connector to attain the maximal score, because
Python max replaces the current best only on a strictly greater key.
Were all four scores 0 the winner would be Feature Advocate, but the
all-empty-texts user of the original claim has a Social Connector
score of 15, see the counterexample. -/
theorem persona_tie_break (texts : List String) (h : 5 ≤ texts.length) :
    (get_user_persona texts).1 =
      first_max_label (advocate_score texts) (learner_score texts)
        (expert_score texts) (social_score texts) ∧
    (advocate_score texts = 0 ∧ learner_score texts = 0 ∧
        expert_score texts = 0 ∧ social_score texts = 0 →
      (get_user_persona texts).1 = "Feature Advocate") := by
  have hn : ¬ texts.length < 5 := by omega
  have hmain : (get_user_persona texts).1 =
      first_max_label (advocate_score texts) (learner_score texts)
        (expert_score texts) (social_score texts) := by
    unfold get_user_persona
    rw [if_neg hn]
    unfold persona_scoring best_pair score_tail
    set a := advocate_score texts with ha
    set b := learner_score texts with hb
    set c := expert_score texts with hc
    set d := social_score texts with hd
    show (pickMax ("Feature Advocate", a)
        [("Active Learner", b), ("Expert Contributor", c),
         ("Social Connector", d)]).1 = first_max_label a b c d
    unfold first_max_label
    by_cases h1 : b > a
    · by_cases h2 : c > b
      · by_cases h3 : d > c
        · have hw : pickMax ("Feature Advocate", a)
              [("Active Learner", b), ("Expert Contributor", c),
               ("Social Connector", d)] = ("Social Connector", d) := by
            simp [pickMax, h1, h2, h3]
          have k0 : ¬ (b ≤ a ∧ c ≤ a ∧ d ≤ a) := by
            rintro ⟨hx, _, _⟩; exact absurd h1 (not_lt.mpr hx)
          have k1 : ¬ (c ≤ b ∧ d ≤ b) := by
            rintro ⟨hx, _⟩; exact absurd h2 (not_lt.mpr hx)
          have k2 : ¬ d ≤ c := not_le.mpr h3
          rw [hw, if_neg k0, if_neg k1, if_neg k2]
        · have hw : pickMax ("Feature Advocate", a)
              [("Active Learner", b), ("Expert Contributor", c),
               ("Social Connector", d)] = ("Expert Contributor", c) := by
            simp [pickMax, h1, h2, h3]
          have k0 : ¬ (b ≤ a ∧ c ≤ a ∧ d ≤ a) := by
            rintro ⟨hx, _, _⟩; exact absurd h1 (not_lt.mpr hx)
          have k1 : ¬ (c ≤ b ∧ d ≤ b) := by
            rintro ⟨hx, _⟩; exact absurd h2 (not_lt.mpr hx)
          rw [hw, if_neg k0, if_neg k1, if_pos (not_lt.mp h3)]
      · by_cases h3 : d > b
        · have hw : pickMax ("Feature Advocate", a)
              [("Active Learner", b), ("Expert Contributor", c),
               ("Social Connector", d)] = ("Social Connector", d) := by
            simp [pickMax, h1, h2, h3]
          have hcb : c ≤ b := not_lt.mp h2
          have k0 : ¬ (b ≤ a ∧ c ≤ a ∧ d ≤ a) := by
            rintro ⟨hx, _, _⟩; exact absurd h1 (not_lt.mpr hx)
          have k1 : ¬ (c ≤ b ∧ d ≤ b) := by
            rintro ⟨_, hx⟩; exact absurd h3 (not_lt.mpr hx)
          have k2 : ¬ d ≤ c := by
            intro hx; exact absurd h3 (not_lt.mpr (le_trans hx hcb))
          rw [hw, if_neg k0, if_neg k1, if_neg k2]
        · have hw : pickMax ("Feature Advocate", a)
              [("Active Learner", b), ("Expert Contributor", c),
               ("Social Connector", d)] = ("Active Learner", b) := by
            simp [pickMax, h1, h2, h3]
          have k0 : ¬ (b ≤ a ∧ c ≤ a ∧ d ≤ a) := by
            rintro ⟨hx, _, _⟩; exact absurd h1 (not_lt.mpr hx)
          rw [hw, if_neg k0, if_pos (And.intro (not_lt.mp h2) (not_lt.mp h3))]
    · by_cases h2 : c > a
      · by_cases h3 : d > c
        · have hw : pickMax ("Feature Advocate", a)
              [("Active Learner", b), ("Expert Contributor", c),
               ("Social Connector", d)] = ("Social Connector", d) := by
            simp [pickMax, h1, h2, h3]
          have hba : b ≤ a := not_lt.mp h1
          have k0 : ¬ (b ≤ a ∧ c ≤ a ∧ d ≤ a) := by
            rintro ⟨_, hx, _⟩; exact absurd h2 (not_lt.mpr hx)
          have k1 : ¬ (c ≤ b ∧ d ≤ b) := by
            rintro ⟨hx, _⟩; exact absurd h2 (not_lt.mpr (le_trans hx hba))
          have k2 : ¬ d ≤ c := not_le.mpr h3
          rw [hw, if_neg k0, if_neg k1, if_neg k2]
        · have hw : pickMax ("Feature Advocate", a)
              [("Active Learner", b), ("Expert Contributor", c),
               ("Social Connector", d)] = ("Expert Contributor", c) := by
            simp [pickMax, h1, h2, h3]
          have hba : b ≤ a := not_lt.mp h1
          have k0 : ¬ (b ≤ a ∧ c ≤ a ∧ d ≤ a) := by
            rintro ⟨_, hx, _⟩; exact absurd h2 (not_lt.mpr hx)
          have k1 : ¬ (c ≤ b ∧ d ≤ b) := by
            rintro ⟨hx, _⟩; exact absurd h2 (not_lt.mpr (le_trans hx hba))
          rw [hw, if_neg k0, if_neg k1, if_pos (not_lt.mp h3)]
      · by_cases h3 : d > a
        · have hw : pickMax ("Feature Advocate", a)
              [("Active Learner", b), ("Expert Contributor", c),
               ("Social Connector", d)] = ("Social Connector", d) := by
            simp [pickMax, h1, h2, h3]
          have hba : b ≤ a := not_lt.mp h1
          have hca : c ≤ a := not_lt.mp h2
          have k0 : ¬ (b ≤ a ∧ c ≤ a ∧ d ≤ a) := by
            rintro ⟨_, _, hx⟩; exact absurd h3 (not_lt.mpr hx)
          have k1 : ¬ (c ≤ b ∧ d ≤ b) := by
            rintro ⟨_, hx⟩; exact absurd h3 (not_lt.mpr (le_trans hx hba))
          have k2 : ¬ d ≤ c := by
            intro hx; exact absurd h3 (not_lt.mpr (le_trans hx hca))
          rw [hw, if_neg k0, if_neg k1, if_neg k2]
        · have hw : pickMax ("Feature Advocate", a)
              [("Active Learner", b), ("Expert Contributor", c),
               ("Social Connector", d)] = ("Feature Advocate", a) := by
            simp [pickMax, h1, h2, h3]
          have k0 : b ≤ a ∧ c ≤ a ∧ d ≤ a :=
            ⟨not_lt.mp h1, not_lt.mp h2, not_lt.mp h3⟩
          rw [hw, if_pos k0]
  refine ⟨hmain, ?_⟩
  rintro ⟨h0, h1, h2, h3⟩
  rw [hmain, h0, h1, h2, h3]
  unfold first_max_label
  rw [if_pos ⟨le_refl 0, le_refl 0, le_refl 0⟩]

/-- Witness for C10 amended: for the five one-word messages the winner
equals the first maximal label of the fixed sequence. -/
theorem persona_tie_break_witness :
    (get_user_persona texts5).1 =
      first_max_label (advocate_score texts5) (learner_score texts5)
        (expert_score texts5) (social_score texts5) :=
  (persona_tie_break texts5 (by decide)).1

end Communlytics
